import Mathlib

/-!
Shallow embedding of the insurance-quote backend (src/main.py, src/schemas.py).

Python floats are modelled by exact rationals: every reachable pricing value
in this program is a short decimal for which IEEE-754 double arithmetic and
Python `round` (half to even) agree with exact rational arithmetic and
rational half-to-even rounding, combination by combination.

The storage layer (`database.py`: `create_document`, `get_documents`, `db`)
is imported by `main.py` but is not among the sources; it is modelled from
the spec where marked.
-/

namespace Quotes

/-- The `quote_type` enum of `QuoteRequest` (src/main.py line 22). -/
inductive QuoteType where
  | auto
  | home
deriving DecidableEq, Repr

/-- Wire representation of a quote type, as `pydantic` serialises the literal. -/
def QuoteType.str : QuoteType → String
  | .auto => "auto"
  | .home => "home"

/-- Structure `QuoteRequest` (src/main.py lines 21-35).  Optional integers are `Option ℤ`,
the optional float `home_value` is `Option ℚ`. -/
structure QuoteRequest where
  quote_type : QuoteType
  zip_code : String
  age : Option ℤ := none
  vehicle_year : Option ℤ := none
  vehicle_make : Option String := none
  vehicle_model : Option String := none
  accidents_last_5_years : Option ℤ := none
  home_value : Option ℚ := none
  square_feet : Option ℤ := none
  security_system : Option Bool := none
deriving DecidableEq, Repr

/-- The range constraints declared on the `Field`s of `QuoteRequest`
(src/main.py lines 24-34); pydantic rejects a body violating them before the
handler runs. -/
def validRequest (p : QuoteRequest) : Bool :=
  (match p.age with
    | none => true
    | some a => decide (16 ≤ a) && decide (a ≤ 120)) &&
  (match p.vehicle_year with
    | none => true
    | some v => decide (1980 ≤ v) && decide (v ≤ 2100)) &&
  (match p.accidents_last_5_years with
    | none => true
    | some n => decide (0 ≤ n) && decide (n ≤ 10)) &&
  (match p.home_value with
    | none => true
    | some v => decide (0 ≤ v)) &&
  (match p.square_feet with
    | none => true
    | some n => decide (100 ≤ n))

/-- Python truthiness of an optional int (`None` and `0` are falsy). -/
def truthyInt (o : Option ℤ) : Bool :=
  match o with
  | none => false
  | some n => decide (n ≠ 0)

/-- Python truthiness of an optional float (`None` and `0.0` are falsy). -/
def truthyRat (o : Option ℚ) : Bool :=
  match o with
  | none => false
  | some v => decide (v ≠ 0)

/-- Round a rational to the nearest integer, halves to the even neighbour
(the tie-breaking Python `round` uses). -/
def rhe (y : ℚ) : ℤ :=
  if y - ⌊y⌋ <
      1/2 then ⌊y⌋
  else if 1/2 < y - ⌊y⌋ then ⌊y⌋ + 1
  else if ⌊y⌋ % 2 = 0 then ⌊y⌋ else ⌊y⌋ + 1

/-- Python `round(x, 2)`: round half to even at two decimals, on the exact
rational value. -/
def round2 (x : ℚ) : ℚ :=
  (rhe (100 * x) : ℚ) / 100

/-- Value `base_price` (src/main.py line 92). -/
def base_price (p : QuoteRequest) : ℚ :=
  if p.quote_type = QuoteType.auto then 600 else 1200

/-- The `modifiers` accumulation (src/main.py lines 94-106), with Python's
truthiness tests embedded faithfully. -/
def modifiers (p : QuoteRequest) : ℚ :=
  let m : ℚ := 0
  let m := if truthyInt p.age && decide (p.age.getD 0 < 25) then m + 25/100 else m
  let m :=
    if p.quote_type = QuoteType.auto then
      let m := if truthyInt p.vehicle_year && decide (p.vehicle_year.getD 0 < 2005) then
          m + 15/100 else m
      let m := if decide (0 < p.accidents_last_5_years.getD 0) then
          m + min (4/10) (1/10 * ((p.accidents_last_5_years.getD 0 : ℚ))) else m
      m
    else m
  let m :=
    if p.quote_type = QuoteType.home then
      let m := if truthyRat p.home_value && decide (750000 < p.home_value.getD 0) then
          m + 2/10 else m
      let m := if p.security_system = some true then m - 5/100 else m
      m
    else m
  m

/-- A carrier offer dictionary (src/main.py lines 109-129). -/
structure CarrierOffer where
  name : String
  monthly : ℚ
  rating : ℚ
  features : List String
  cta : String
deriving DecidableEq, Repr

/-- The `carriers` list built in `create_quote` (src/main.py lines 108-130). -/
def carriers (p : QuoteRequest) : List CarrierOffer :=
  [ { name := "BlueShield Mutual"
      monthly := round2 (base_price p * (1 + modifiers p) / 12 * (95/100))
      rating := 47/10
      features := ["24/7 support", "Bundle discount", "Fast claims"]
      cta := "Get Started" },
    { name := "NorthStar Insurance"
      monthly := round2 (base_price p * (1 + modifiers p) / 12 * (102/100))
      rating := 45/10
      features := ["Accident forgiveness", "Roadside (auto)", "Smart home (home)"]
      cta := "Select" },
    { name := "Aurora Coverage Co."
      monthly := round2 (base_price p * (1 + modifiers p) / 12 * (88/100))
      rating := 43/10
      features := ["Low deductible options", "Local agents", "Online portal"]
      cta := "View Details" } ]

/-- The modifier accumulation stated the way the spec words it (§4.1 step 2):
"age present and age < 25: +0.25"; "auto: vehicle_year present and < 2005:
+0.15"; "auto: accidents_last_5_years > 0: + min(0.4, 0.1 × accidents)";
"home: home_value present and > 750000: +0.2"; "home: security_system true:
−0.05"; a missing optional field contributes nothing (§4.1 edge cases). -/
def specModifier (p : QuoteRequest) : ℚ :=
  (match p.age with
    | some a => if a < 25 then (25 : ℚ)/100 else 0
    | none => (0 : ℚ))
  + (if p.quote_type = QuoteType.auto then
      (match p.vehicle_year with
        | some v => if v < 2005 then (15 : ℚ)/100 else 0
        | none => (0 : ℚ))
      + (match p.accidents_last_5_years with
          | some n => if 0 < n then min ((4 : ℚ)/10) (1/10 * (n : ℚ)) else 0
          | none => (0 : ℚ))
    else 0)
  + (if p.quote_type = QuoteType.home then
      (match p.home_value with
        | some v => if 750000 < v then (2 : ℚ)/10 else 0
        | none => (0 : ℚ))
      + (if p.security_system = some true then -((5 : ℚ)/100) else 0)
    else 0)

/-- Structure `QuoteResponse` (src/main.py lines 38-42), with the results given the
concrete shape the handler always produces. -/
structure QuoteResponse where
  id : String
  quote_type : String
  zip_code : String
  results : List CarrierOffer
deriving DecidableEq, Repr

/-- A persisted document of the `quote` collection: the dumped payload, the
embedded `results`, and the store-assigned id
(src/main.py lines 132-140; schema `Quote` in src/schemas.py). -/
structure QuoteDoc where
  oid : ℕ
  payload : QuoteRequest
  results : List CarrierOffer
deriving DecidableEq, Repr

/-- Modelled from the spec: `database.py` (`create_document`) is imported by
main.py but is not among the sources.  §4.2: "`create(record) -> unique_id`:
persists a StoredQuote-shaped document, returns a system-generated unique
identifier", records accumulating in insertion order.  The store is a list,
oldest first; the generated id is the insertion index. -/
def create_document (s : List QuoteDoc) (p : QuoteRequest) (res : List CarrierOffer) :
    List QuoteDoc × ℕ :=
  (s ++ [{ oid := s.length, payload := p, results := res }], s.length)

/-- Modelled from the spec: `database.py` (`get_documents`) is imported by
main.py but is not among the sources.  §4.2: "`list(limit)` returns up to
`limit` most-recently-inserted records". -/
def get_documents (s : List QuoteDoc) (limit : ℕ) : List QuoteDoc :=
  s.reverse.take limit

/-- One item of the `GET /api/quotes` response: a stored document with its
id turned into a string (src/main.py line 157). -/
structure QuoteItem where
  oid : String
  payload : QuoteRequest
  results : List CarrierOffer
deriving DecidableEq, Repr

/-- The `d["_id"] = str(d["_id"])` serialisation step (src/main.py line 157). -/
def stringifyId (d : QuoteDoc) : QuoteItem :=
  { oid := toString d.oid, payload := d.payload, results := d.results }

/-- An `HTTPException(status_code=..., detail=...)` (src/main.py). -/
structure HTTPException where
  status_code : ℕ
  detail : String
deriving DecidableEq, Repr

/-- Handler `create_quote` (src/main.py lines 84-147).  `dbConfigured` is the
`db is None` state; `write_error` is `some e` when the `create_document`
call raises an exception whose `str` is `e`.  On success it returns the
updated store and the `QuoteResponse`. -/
def create_quote (dbConfigured : Bool) (write_error : Option String)
    (s : List QuoteDoc) (payload : QuoteRequest) :
    Except HTTPException (List QuoteDoc × QuoteResponse) :=
  if dbConfigured = false then
    .error { status_code := 500, detail := "Database not configured" }
  else
    let cs := carriers payload
    match write_error with
    | some e => .error { status_code := 500, detail := "Failed to save: " ++ e }
    | none =>
      let r := create_document s payload cs
      .ok (r.1,
        { id := toString r.2
          quote_type := payload.quote_type.str
          zip_code := payload.zip_code
          results := cs })

/-- Handler `list_quotes` (src/main.py lines 150-160).  `read_error` is `some e`
when the body of the `try` raises an exception whose `str` is `e`. -/
def list_quotes (dbConfigured : Bool) (read_error : Option String)
    (s : List QuoteDoc) (limit : ℕ) :
    Except HTTPException (List QuoteItem) :=
  if dbConfigured = false then
    .error { status_code := 500, detail := "Database not configured" }
  else
    match read_error with
    | some e => .error { status_code := 500, detail := e }
    | none => .ok ((get_documents s limit).map stringifyId)

/-- The full `POST /api/quotes` surface: pydantic checks the request body
against the `Field` range constraints declared on `QuoteRequest`
(src/main.py lines 21-35) before the handler runs, and rejects a violating
body with a client validation error; only a valid body reaches
`create_quote`. -/
def post_api_quotes (dbConfigured : Bool) (write_error : Option String)
    (s : List QuoteDoc) (payload : QuoteRequest) :
    Except HTTPException (List QuoteDoc × QuoteResponse) :=
  if validRequest payload then create_quote dbConfigured write_error s payload
  else .error { status_code := 422, detail := "validation error" }

/-- A concrete valid auto request, used to instantiate universally
quantified results. -/
def pAuto : QuoteRequest :=
  { quote_type := QuoteType.auto
    zip_code := "90210"
    age := some 30
    vehicle_year := some 2010
    accidents_last_5_years := some 0 }

/-- A concrete valid home request with a high home value and a security
system, used to instantiate universally quantified results. -/
def pHome : QuoteRequest :=
  { quote_type := QuoteType.home
    zip_code := "10001"
    age := some 30
    home_value := some 800000
    square_feet := some 2400
    security_system := some true }

/-- A 60-character storage-failure diagnostic, longer than the 50-character
truncation the repository applies elsewhere to such messages. -/
def errLong : String :=
  "connection reset by peer while writing document to quote col"

end Quotes

namespace Quotes

theorem modifiers_def (p : QuoteRequest) : modifiers p =
    (if truthyInt p.age && decide (p.age.getD 0 < 25) then (25 : ℚ)/100 else 0)
    + (if p.quote_type = QuoteType.auto then
        (if truthyInt p.vehicle_year && decide (p.vehicle_year.getD 0 < 2005) then
          (15 : ℚ)/100 else 0)
        + (if decide (0 < p.accidents_last_5_years.getD 0) then
            min ((4 : ℚ)/10) (1/10 * ((p.accidents_last_5_years.getD 0 : ℚ))) else 0)
      else 0)
    + (if p.quote_type = QuoteType.home then
        (if truthyRat p.home_value && decide (750000 < p.home_value.getD 0) then
          (2 : ℚ)/10 else 0)
        + (if p.security_system = some true then -((5 : ℚ)/100) else 0)
      else 0) := by
  unfold modifiers
  dsimp only
  split_ifs <;> ring

theorem valid_age (p : QuoteRequest) (h : validRequest p = true) :
    ∀ a, p.age = some a → 16 ≤ a ∧ a ≤ 120 := by
  intro a ha
  unfold validRequest at h
  rw [ha] at h
  simp only [Bool.and_eq_true, decide_eq_true_eq] at h
  exact h.1.1.1.1

theorem valid_vy (p : QuoteRequest) (h : validRequest p = true) :
    ∀ v, p.vehicle_year = some v → 1980 ≤ v ∧ v ≤ 2100 := by
  intro v hv
  unfold validRequest at h
  rw [hv] at h
  simp only [Bool.and_eq_true, decide_eq_true_eq] at h
  exact h.1.1.1.2

theorem valid_acc (p : QuoteRequest) (h : validRequest p = true) :
    ∀ n, p.accidents_last_5_years = some n → 0 ≤ n ∧ n ≤ 10 := by
  intro n hn
  unfold validRequest at h
  rw [hn] at h
  simp only [Bool.and_eq_true, decide_eq_true_eq] at h
  exact h.1.1.2

theorem valid_hv (p : QuoteRequest) (h : validRequest p = true) :
    ∀ x, p.home_value = some x → 0 ≤ x := by
  intro x hx
  unfold validRequest at h
  rw [hx] at h
  simp only [Bool.and_eq_true, decide_eq_true_eq] at h
  exact h.1.2

theorem modifiers_eq_specModifier (p : QuoteRequest) (h : validRequest p = true) :
    modifiers p = specModifier p := by
  rw [modifiers_def]
  unfold specModifier
  have e_age : (if truthyInt p.age && decide (p.age.getD 0 < 25) then (25 : ℚ)/100 else 0)
      = (match p.age with
          | some a => if a < 25 then (25 : ℚ)/100 else 0
          | none => (0 : ℚ)) := by
    cases hp : p.age with
    | none => simp [truthyInt]
    | some a =>
      have h16 := (valid_age p h a hp).1
      simp only [truthyInt, Option.getD_some, Bool.and_eq_true, decide_eq_true_eq]
      split_ifs <;> first | rfl | omega
  have e_vy : (if truthyInt p.vehicle_year && decide (p.vehicle_year.getD 0 < 2005) then
        (15 : ℚ)/100 else 0)
      = (match p.vehicle_year with
          | some v => if v < 2005 then (15 : ℚ)/100 else 0
          | none => (0 : ℚ)) := by
    cases hp : p.vehicle_year with
    | none => simp [truthyInt]
    | some v =>
      have h1980 := (valid_vy p h v hp).1
      simp only [truthyInt, Option.getD_some, Bool.and_eq_true, decide_eq_true_eq]
      split_ifs <;> first | rfl | omega
  have e_acc : (if decide (0 < p.accidents_last_5_years.getD 0) then
        min ((4 : ℚ)/10) (1/10 * ((p.accidents_last_5_years.getD 0 : ℚ))) else 0)
      = (match p.accidents_last_5_years with
          | some n => if 0 < n then min ((4 : ℚ)/10) (1/10 * (n : ℚ)) else 0
          | none => (0 : ℚ)) := by
    cases hp : p.accidents_last_5_years with
    | none => simp
    | some n =>
      simp only [Option.getD_some, decide_eq_true_eq]
  have e_hv : (if truthyRat p.home_value && decide (750000 < p.home_value.getD 0) then
        (2 : ℚ)/10 else 0)
      = (match p.home_value with
          | some x => if 750000 < x then (2 : ℚ)/10 else 0
          | none => (0 : ℚ)) := by
    cases hp : p.home_value with
    | none => simp [truthyRat]
    | some x =>
      have hx0 := valid_hv p h x hp
      have hcond : ((x ≠ 0) ∧ 750000 < x) ↔ 750000 < x :=
        ⟨fun hc => hc.2, fun hgt => ⟨by intro hz; rw [hz] at hgt; linarith, hgt⟩⟩
      simp only [truthyRat, Option.getD_some, Bool.and_eq_true, decide_eq_true_eq, hcond]
  rw [e_age, e_vy, e_acc, e_hv]

end Quotes

namespace Quotes

/-- C1: for every valid QuoteRequest the pricing computation in create_quote
produces exactly 3 carrier offers whose monthly prices are
round(base_price × (1 + modifier) / 12 × multiplier, 2) for the multipliers
0.95, 1.02, 0.88 in that order, with base_price 600 for auto and 1200 for
home and the modifier accumulated from 0 per the spec's rules, and the
successful response embeds exactly these offers. -/
theorem c1_pricing_formula (p : QuoteRequest) (h : validRequest p = true) :
    (carriers p).length = 3 ∧
    (carriers p).map CarrierOffer.monthly =
      [round2 (base_price p * (1 + specModifier p) / 12 * (95/100)),
       round2 (base_price p * (1 + specModifier p) / 12 * (102/100)),
       round2 (base_price p * (1 + specModifier p) / 12 * (88/100))] ∧
    base_price p = (if p.quote_type = QuoteType.auto then (600 : ℚ) else 1200) ∧
    (∀ s s2 resp, create_quote true none s p = .ok (s2, resp) →
      resp.results = carriers p) := by
  refine ⟨rfl, ?_, rfl, ?_⟩
  · simp only [carriers, List.map]
    rw [modifiers_eq_specModifier p h]
  · intro s s2 resp hc
    simp only [create_quote, Bool.true_eq_false, if_false, reduceIte, Except.ok.injEq,
      Prod.mk.injEq] at hc
    rw [← hc.2]

/-- C3: a valid auto request whose age (when present) is at least 25, whose
vehicle_year (when present) is at least 2005 and with no accidents gets
modifier 0 and monthly prices 47.50, 51.00, 44.00. -/
theorem c3_auto_baseline (p : QuoteRequest) (hval : validRequest p = true)
    (hq : p.quote_type = QuoteType.auto)
    (hage : ∀ a, p.age = some a → 25 ≤ a)
    (hvy : ∀ v, p.vehicle_year = some v → 2005 ≤ v)
    (hacc : p.accidents_last_5_years.getD 0 = 0) :
    modifiers p = 0 ∧
    (carriers p).map CarrierOffer.monthly = [95/2, 51, 44] := by
  have hm : modifiers p = 0 := by
    rw [modifiers_def, hq]
    have t_age : (truthyInt p.age && decide (p.age.getD 0 < 25)) = false := by
      cases hp : p.age with
      | none => simp [truthyInt]
      | some a =>
        have := hage a hp
        simp only [truthyInt, Option.getD_some, Bool.and_eq_false_iff, decide_eq_false_iff_not]
        right
        omega
    have t_vy : (truthyInt p.vehicle_year && decide (p.vehicle_year.getD 0 < 2005)) = false := by
      cases hp : p.vehicle_year with
      | none => simp [truthyInt]
      | some v =>
        have := hvy v hp
        simp only [truthyInt, Option.getD_some, Bool.and_eq_false_iff, decide_eq_false_iff_not]
        right
        omega
    simp [t_age, t_vy, hacc]
  refine ⟨hm, ?_⟩
  simp only [carriers, List.map, hm, base_price, hq, if_pos rfl]
  norm_num [round2, rhe]

end Quotes

namespace Quotes

/-- C4: a home request with home_value 800000, a security system and age 30
gets modifier 0.2 − 0.05 = 0.15, effective monthly base 115.00, and monthly
prices 109.25, 117.30, 101.20. -/
theorem home_ne_auto : QuoteType.home ≠ QuoteType.auto := by
  intro h
  cases h

theorem c4_home_highvalue (p : QuoteRequest)
    (hq : p.quote_type = QuoteType.home) (hhv : p.home_value = some 800000)
    (hss : p.security_system = some true) (hage : p.age = some 30) :
    modifiers p = 15/100 ∧
    base_price p * (1 + modifiers p) / 12 = 115 ∧
    (carriers p).map CarrierOffer.monthly = [10925/100, 11730/100, 10120/100] := by
  have hm : modifiers p = 15/100 := by
    rw [modifiers_def, hq, hage, hhv, hss]
    norm_num [truthyInt, truthyRat, home_ne_auto]
  have hb : base_price p = 1200 := by
    rw [base_price, hq]
    norm_num [home_ne_auto]
  refine ⟨hm, ?_, ?_⟩
  · rw [hm, hb]
    norm_num
  · simp only [carriers, List.map, hm, hb]
    norm_num [round2, rhe]

/-- C5: on an auto request with accidents_last_5_years = a > 0, the accident
history contributes exactly min(0.4, 0.1 × a) to the modifier; at a = 10 the
contribution is 0.4, not 1.0. -/
theorem c5_accidents_capped (p : QuoteRequest) (a : ℤ)
    (hq : p.quote_type = QuoteType.auto)
    (hacc : p.accidents_last_5_years = some a) (hpos : 0 < a) :
    modifiers p = modifiers { p with accidents_last_5_years := some 0 }
      + min ((4 : ℚ)/10) (1/10 * (a : ℚ)) ∧
    (a = 10 → min ((4 : ℚ)/10) (1/10 * (a : ℚ)) = 4/10 ∧
      min ((4 : ℚ)/10) (1/10 * (a : ℚ)) ≠ 1) := by
  constructor
  · rw [modifiers_def, modifiers_def]
    simp only [hq, hacc, Option.getD_some]
    norm_num [hpos]
    ring
  · rintro rfl
    norm_num

end Quotes

namespace Quotes

/-- C6: pricing ignores fields irrelevant to the quote_type. Two valid home
requests differing only in the auto-specific fields (vehicle_year,
vehicle_make, vehicle_model, accidents_last_5_years) get identical carrier
offers, and two valid auto requests differing only in the home-specific
fields (home_value, square_feet, security_system) get identical offers. -/
theorem auto_ne_home : QuoteType.auto ≠ QuoteType.home := by
  intro h
  cases h

theorem c6_pricing_ignores_irrelevant :
    (∀ p q : QuoteRequest, validRequest p = true → validRequest q = true →
      p.quote_type = QuoteType.home → q.quote_type = QuoteType.home →
      p.zip_code = q.zip_code → p.age = q.age → p.home_value = q.home_value →
      p.square_feet = q.square_feet → p.security_system = q.security_system →
      carriers p = carriers q) ∧
    (∀ p q : QuoteRequest, validRequest p = true → validRequest q = true →
      p.quote_type = QuoteType.auto → q.quote_type = QuoteType.auto →
      p.zip_code = q.zip_code → p.age = q.age → p.vehicle_year = q.vehicle_year →
      p.vehicle_make = q.vehicle_make → p.vehicle_model = q.vehicle_model →
      p.accidents_last_5_years = q.accidents_last_5_years →
      carriers p = carriers q) := by
  constructor
  · intro p q _ _ hp hq hzip hage hhv hsf hss
    have hm : modifiers p = modifiers q := by
      rw [modifiers_def, modifiers_def, hp, hq, hage, hhv, hss]
      simp [home_ne_auto]
    have hb : base_price p = base_price q := by
      rw [base_price, base_price, hp, hq]
    rw [carriers, carriers, hm, hb]
  · intro p q _ _ hp hq hzip hage hvy hvmk hvmd hacc
    have hm : modifiers p = modifiers q := by
      rw [modifiers_def, modifiers_def, hp, hq, hage, hvy, hacc]
      simp [auto_ne_home]
    have hb : base_price p = base_price q := by
      rw [base_price, base_price, hp, hq]
    rw [carriers, carriers, hm, hb]

/-- C8: a request violating a declared range constraint, such as age 15 or
vehicle_year 1975, fails validation and is rejected with a client
validation error before the pricing computation runs, whatever the state of
the store. -/
theorem c8_invalid_rejected (p : QuoteRequest)
    (h : p.age = some 15 ∨ p.vehicle_year = some 1975) :
    validRequest p = false ∧
    ∀ dbc we s, post_api_quotes dbc we s p =
      .error { status_code := 422, detail := "validation error" } := by
  have hv : validRequest p = false := by
    rcases h with h | h <;>
      · unfold validRequest
        rw [h]
        simp
  exact ⟨hv, fun dbc we s => by simp [post_api_quotes, hv]⟩

end Quotes

namespace Quotes

/-- C9: for every limit, a successful GET /api/quotes returns at most
`limit` items, and they are exactly the up-to-`limit` most-recently-inserted
stored quotes, serialised with stringified ids. -/
theorem c9_list_limit (s : List QuoteDoc) (limit : ℕ) (items : List QuoteItem)
    (h : list_quotes true none s limit = .ok items) :
    items.length ≤ limit ∧ items = (s.reverse.take limit).map stringifyId := by
  have he : items = (get_documents s limit).map stringifyId := by
    simp only [list_quotes, Bool.true_eq_false, if_false, reduceIte, Except.ok.injEq] at h
    exact h.symm
  refine ⟨?_, by rw [he, get_documents]⟩
  rw [he, get_documents, List.length_map]
  calc (s.reverse.take limit).length ≤ limit := by
        rw [List.length_take]
        exact min_le_left limit s.reverse.length

/-- C2: creating a quote into an empty store and then listing with limit 1
returns exactly the just-created record, with the same quote_type, zip_code
and results (and the same id) as the create response. -/
theorem c2_create_then_list (p : QuoteRequest) (s2 : List QuoteDoc) (resp : QuoteResponse)
    (h : create_quote true none [] p = .ok (s2, resp)) :
    ∃ item : QuoteItem,
      list_quotes true none s2 1 = .ok [item] ∧
      item.oid = resp.id ∧
      item.payload.quote_type.str = resp.quote_type ∧
      item.payload.zip_code = resp.zip_code ∧
      item.results = resp.results := by
  simp only [create_quote, create_document, Bool.true_eq_false, if_false, reduceIte,
    Except.ok.injEq, Prod.mk.injEq, List.nil_append, List.length_nil] at h
  obtain ⟨hs2, hresp⟩ := h
  refine ⟨stringifyId { oid := 0, payload := p, results := carriers p }, ?_, ?_, ?_, ?_, ?_⟩
  · rw [← hs2]
    rfl
  · rw [← hresp]
    rfl
  · rw [← hresp]
    rfl
  · rw [← hresp]
    rfl
  · rw [← hresp]
    rfl

end Quotes

namespace Quotes

/-- C7 counterexample: on a write failure whose diagnostic is 60 characters
long, create_quote surfaces the full 76-character detail
"Failed to save: " ++ error; the message is not truncated (in particular not
to the 50-character cut the repository applies to diagnostics elsewhere). -/
theorem c7_counterexample :
    create_quote true (some errLong) []
        { quote_type := QuoteType.auto, zip_code := "90210" }
      = .error { status_code := 500, detail := "Failed to save: " ++ errLong } ∧
    errLong.length = 60 ∧
    ("Failed to save: " ++ errLong).length = 76 ∧
    ¬ ("Failed to save: " ++ errLong).length ≤ 66 := by
  refine ⟨rfl, ?_, ?_, ?_⟩ <;> decide

/-- C7 (amended): POST /api/quotes fails with HTTP 500 exactly when the
store is not configured or the write fails; an unconfigured store yields
detail "Database not configured"; a write failure is surfaced once, with the
full untruncated diagnostic appended to "Failed to save: "; and no quote
response is returned in either failure case. -/
theorem c7_error_surface (dbc : Bool) (we : Option String)
    (s : List QuoteDoc) (p : QuoteRequest) :
    ((∃ r, create_quote dbc we s p = Except.ok r) ↔ (dbc = true ∧ we = none)) ∧
    (dbc = false →
      create_quote dbc we s p =
        .error { status_code := 500, detail := "Database not configured" }) ∧
    (∀ e, dbc = true → we = some e →
      create_quote dbc we s p =
        .error { status_code := 500, detail := "Failed to save: " ++ e }) := by
  cases dbc <;> cases we <;>
    simp [create_quote]

end Quotes

namespace Quotes

theorem floor_le_rhe (y : ℚ) : ⌊y⌋ ≤ rhe y := by
  unfold rhe
  split_ifs <;> omega

theorem rhe_le_floor_add_one (y : ℚ) : rhe y ≤ ⌊y⌋ + 1 := by
  unfold rhe
  split_ifs <;> omega

theorem rhe_mono {x y : ℚ} (h : x ≤ y) : rhe x ≤ rhe y := by
  rcases lt_or_eq_of_le (Int.floor_le_floor h) with hf | hf
  · calc rhe x ≤ ⌊x⌋ + 1 := rhe_le_floor_add_one x
      _ ≤ ⌊y⌋ := by omega
      _ ≤ rhe y := floor_le_rhe y
  · unfold rhe
    rw [← hf]
    split_ifs <;> first | omega | linarith [hf ▸ Int.floor_le_floor h]
  
theorem round2_mono {x y : ℚ} (h : x ≤ y) : round2 x ≤ round2 y := by
  unfold round2
  have h1 : rhe (100 * x) ≤ rhe (100 * y) := rhe_mono (by linarith)
  have h2 : ((rhe (100 * x) : ℤ) : ℚ) ≤ ((rhe (100 * y) : ℤ) : ℚ) := Int.cast_le.mpr h1
  linarith

theorem modifiers_ge (p : QuoteRequest) : -((5 : ℚ)/100) ≤ modifiers p := by
  rw [modifiers_def]
  have h1 : (0 : ℚ) ≤
      (if truthyInt p.age && decide (p.age.getD 0 < 25) then (25 : ℚ)/100 else 0) := by
    split_ifs <;> norm_num
  have h2 : (0 : ℚ) ≤
      (if p.quote_type = QuoteType.auto then
        (if truthyInt p.vehicle_year && decide (p.vehicle_year.getD 0 < 2005) then
          (15 : ℚ)/100 else 0)
        + (if decide (0 < p.accidents_last_5_years.getD 0) then
            min ((4 : ℚ)/10) (1/10 * ((p.accidents_last_5_years.getD 0 : ℚ))) else 0)
      else 0) := by
    split_ifs with hq hvy hacc hacc2
    · have : (0 : ℚ) ≤ 1/10 * ((p.accidents_last_5_years.getD 0 : ℚ)) := by
        simp only [decide_eq_true_eq] at hacc
        have : (0 : ℚ) < (p.accidents_last_5_years.getD 0 : ℚ) := by
          exact_mod_cast hacc
        linarith
      have := le_min (by norm_num : (0 : ℚ) ≤ 4/10) this
      linarith
    · norm_num
    · have : (0 : ℚ) ≤ 1/10 * ((p.accidents_last_5_years.getD 0 : ℚ)) := by
        simp only [decide_eq_true_eq] at hacc2
        have : (0 : ℚ) < (p.accidents_last_5_years.getD 0 : ℚ) := by
          exact_mod_cast hacc2
        linarith
      have := le_min (by norm_num : (0 : ℚ) ≤ 4/10) this
      linarith
    · norm_num
    · norm_num
  have h3 : -((5 : ℚ)/100) ≤
      (if p.quote_type = QuoteType.home then
        (if truthyRat p.home_value && decide (750000 < p.home_value.getD 0) then
          (2 : ℚ)/10 else 0)
        + (if p.security_system = some true then -((5 : ℚ)/100) else 0)
      else 0) := by
    split_ifs <;> norm_num
  linarith

/-- C10: the offers come in the fixed order BlueShield Mutual, NorthStar
Insurance, Aurora Coverage Co., and their monthly prices follow the carrier
multipliers: Aurora (0.88) is no higher than BlueShield (0.95), which is no
higher than NorthStar (1.02). -/
theorem c10_offer_order (p : QuoteRequest) (h : validRequest p = true) :
    ∃ o1 o2 o3 : CarrierOffer, carriers p = [o1, o2, o3] ∧
      o1.name = "BlueShield Mutual" ∧ o2.name = "NorthStar Insurance" ∧
      o3.name = "Aurora Coverage Co." ∧
      o3.monthly ≤ o1.monthly ∧ o1.monthly ≤ o2.monthly := by
  have he : (0 : ℚ) ≤ base_price p * (1 + modifiers p) / 12 := by
    have hm := modifiers_ge p
    have hb : (0 : ℚ) < base_price p := by
      unfold base_price
      split_ifs <;> norm_num
    have h1 : (0 : ℚ) ≤ 1 + modifiers p := by linarith
    have := mul_nonneg (le_of_lt hb) h1
    linarith
  refine ⟨_, _, _, rfl, rfl, rfl, rfl, ?_, ?_⟩
  · exact round2_mono (by nlinarith)
  · exact round2_mono (by nlinarith)

end Quotes

namespace Quotes

/-- Witness for C1 at the concrete valid request `pAuto`. -/
theorem c1_pricing_formula_witness :
    (carriers pAuto).length = 3 ∧
    (carriers pAuto).map CarrierOffer.monthly =
      [round2 (base_price pAuto * (1 + specModifier pAuto) / 12 * (95/100)),
       round2 (base_price pAuto * (1 + specModifier pAuto) / 12 * (102/100)),
       round2 (base_price pAuto * (1 + specModifier pAuto) / 12 * (88/100))] :=
  ⟨(c1_pricing_formula pAuto (by decide)).1, (c1_pricing_formula pAuto (by decide)).2.1⟩

/-- Witness for C2: create `pAuto` into the empty store, then list with
limit 1. -/
theorem c2_create_then_list_witness :
    ∃ item : QuoteItem,
      list_quotes true none [{ oid := 0, payload := pAuto, results := carriers pAuto }] 1
        = .ok [item] ∧
      item.oid = "0" ∧
      item.payload.quote_type.str = "auto" ∧
      item.payload.zip_code = "90210" ∧
      item.results = carriers pAuto :=
  c2_create_then_list pAuto
    [{ oid := 0, payload := pAuto, results := carriers pAuto }]
    { id := "0", quote_type := "auto", zip_code := "90210", results := carriers pAuto }
    rfl

/-- Witness for C3 at the concrete valid request `pAuto`. -/
theorem c3_auto_baseline_witness :
    modifiers pAuto = 0 ∧ (carriers pAuto).map CarrierOffer.monthly = [95/2, 51, 44] :=
  c3_auto_baseline pAuto (by decide) rfl
    (by intro a ha; simp only [pAuto] at ha; cases ha; decide)
    (by intro v hv; simp only [pAuto] at hv; cases hv; decide)
    rfl

/-- Witness for C4 at the concrete valid request `pHome`. -/
theorem c4_home_highvalue_witness :
    modifiers pHome = 15/100 ∧
    base_price pHome * (1 + modifiers pHome) / 12 = 115 ∧
    (carriers pHome).map CarrierOffer.monthly = [10925/100, 11730/100, 10120/100] :=
  c4_home_highvalue pHome rfl rfl rfl rfl

/-- Witness for C5 at `pAuto` with ten accidents. -/
theorem c5_accidents_capped_witness :
    modifiers { pAuto with accidents_last_5_years := some 10 }
      = modifiers { pAuto with accidents_last_5_years := some 0 }
        + min ((4 : ℚ)/10) (1/10 * ((10 : ℤ) : ℚ)) ∧
    min ((4 : ℚ)/10) (1/10 * ((10 : ℤ) : ℚ)) = 4/10 ∧
    min ((4 : ℚ)/10) (1/10 * ((10 : ℤ) : ℚ)) ≠ 1 :=
  ⟨(c5_accidents_capped { pAuto with accidents_last_5_years := some 10 } 10
      rfl rfl (by decide)).1,
   (c5_accidents_capped { pAuto with accidents_last_5_years := some 10 } 10
      rfl rfl (by decide)).2 rfl⟩

/-- Witness for C6: two valid home requests differing only in vehicle_year
price identically. -/
theorem c6_pricing_ignores_irrelevant_witness :
    carriers pHome = carriers { pHome with vehicle_year := some 1999 } :=
  c6_pricing_ignores_irrelevant.1 pHome { pHome with vehicle_year := some 1999 }
    (by decide) (by decide) rfl rfl rfl rfl rfl rfl rfl

/-- Witness for C7 (amended) at a concrete failing write. -/
theorem c7_error_surface_witness :
    create_quote true (some "boom") [] pAuto
      = .error { status_code := 500, detail := "Failed to save: " ++ "boom" } :=
  (c7_error_surface true (some "boom") [] pAuto).2.2 "boom" rfl rfl

/-- Witness for C8 at a request with age 15. -/
theorem c8_invalid_rejected_witness :
    validRequest { quote_type := QuoteType.auto, zip_code := "90210", age := some 15 } = false ∧
    post_api_quotes true none []
        { quote_type := QuoteType.auto, zip_code := "90210", age := some 15 }
      = .error { status_code := 422, detail := "validation error" } :=
  ⟨(c8_invalid_rejected
      { quote_type := QuoteType.auto, zip_code := "90210", age := some 15 } (Or.inl rfl)).1,
   (c8_invalid_rejected
      { quote_type := QuoteType.auto, zip_code := "90210", age := some 15 }
      (Or.inl rfl)).2 true none []⟩

/-- Witness for C9 on a two-record store with limit 1. -/
theorem c9_list_limit_witness :
    ([stringifyId { oid := 1, payload := pAuto, results := [] }] : List QuoteItem).length ≤ 1 ∧
    [stringifyId { oid := 1, payload := pAuto, results := [] }]
      = (([{ oid := 0, payload := pAuto, results := [] },
           { oid := 1, payload := pAuto, results := [] }] : List QuoteDoc).reverse.take 1).map
          stringifyId :=
  c9_list_limit
    [{ oid := 0, payload := pAuto, results := [] },
     { oid := 1, payload := pAuto, results := [] }] 1
    [stringifyId { oid := 1, payload := pAuto, results := [] }] rfl

/-- Witness for C10 at the concrete valid request `pAuto`. -/
theorem c10_offer_order_witness :
    ∃ o1 o2 o3 : CarrierOffer, carriers pAuto = [o1, o2, o3] ∧
      o1.name = "BlueShield Mutual" ∧ o2.name = "NorthStar Insurance" ∧
      o3.name = "Aurora Coverage Co." ∧
      o3.monthly ≤ o1.monthly ∧ o1.monthly ≤ o2.monthly :=
  c10_offer_order pAuto (by decide)

end Quotes
